import Mathlib

/-!
Verification development for the BESS digital-twin simulation engine.

The definitions below are a shallow embedding of the Python sources
`simulation_objects.py`, `simulation_runner.py` and the constants of
`config.py`.  All floating-point quantities of the source are modelled as
exact rationals (`ℚ`); machine state that the source mutates in place is
passed explicitly, each `update_state` becoming a pure state-transformer.
-/

set_option maxRecDepth 8000

/- ----------------------------------------------------------------
   Constants from config.py
   ---------------------------------------------------------------- -/

def SITE_TARGET_POWER_MW : ℚ := 40

def RAMP_DURATION_SECONDS : ℤ := 30

def CHARGE_TAPER_DURATION_SECONDS : ℤ := 60

def DISCHARGE_TAPER_DURATION_SECONDS : ℤ := 60

def CHARGE_TAPER_SOC_THRESHOLD : ℚ := 98

def DISCHARGE_TAPER_SOC_THRESHOLD : ℚ := 8

def HEAT_SOAK_DURATION_HOURS : ℚ := 2

def L2_CALIBRATE_LOW_VOLTAGE : ℚ := 3

def L2_CUTOFF_LOW_VOLTAGE : ℚ := 2.8

def L2_CALIBRATE_HIGH_VOLTAGE : ℚ := 3.45

def L2_CUTOFF_HIGH_VOLTAGE : ℚ := 3.6

def MIN_SAFE_SOC : ℚ := 5.2

def MAX_SAFE_SOC : ℚ := 100

def WEAK_LINK_CUTOFF_BY_VOLTAGE : Bool := true

def AMBIENT_TEMPERATURE_C : ℚ := 35

def FLUID_DENSITY_KG_M3 : ℚ := 1075

def FLUID_SPECIFIC_HEAT_J_KG_K : ℚ := 3500

def CELL_CAPACITY_AH : ℚ := 300

def CELL_INTERNAL_RESISTANCE_OHMS : ℚ := 0.0005

def BALANCING_TOP_SOC_START : ℚ := 94

def BALANCING_BOTTOM_SOC_END : ℚ := 6

def BALANCING_BLEED_CURRENT_A : ℚ := 0.6

/-- The SOC→voltage lookup table `SOC_VOLTAGE_CURVE` of config.py. -/
def SOC_VOLTAGE_CURVE : List (ℚ × ℚ) :=
  [(0, 2.5), (5, 2.8), (10, 3.1), (20, 3.2), (30, 3.25), (40, 3.3), (50, 3.32),
   (60, 3.35), (70, 3.4), (80, 3.45), (90, 3.55), (95, 3.6), (100, 3.65)]

/- ----------------------------------------------------------------
   Interpolator (simulation_objects.py lines 22-51)
   ---------------------------------------------------------------- -/

/-- The `for i in range(1, len(points))` loop of `interpolate_voltage_from_soc`:
first bracketing segment with `x <= x1` wins, otherwise the last breakpoint's
voltage is returned. -/
def interpLoop : List (ℚ × ℚ) → ℚ → ℚ
  | [], _ => 0
  | [p], _ => p.2
  | p0 :: p1 :: rest, x =>
    if x ≤ p1.1 then
      p0.2 + (if p1.1 = p0.1 then 0 else (x - p0.1) / (p1.1 - p0.1)) * (p1.2 - p0.2)
    else interpLoop (p1 :: rest) x

/-- Scalar piecewise-linear interpolation `interpolate_voltage_from_soc`:
the input is clamped to [0,100] and then looked up in the curve. -/
def interpolate_voltage_from_soc (points : List (ℚ × ℚ)) (soc_percent : ℚ) : ℚ :=
  interpLoop points (max 0 (min 100 soc_percent))

/-- Interior segment search of `np.interp`: the segment with
`xp[i] <= x < xp[i+1]` wins; at or past the last breakpoint its value. -/
def npInterpSeg : List (ℚ × ℚ) → ℚ → ℚ
  | [], _ => 0
  | [p], _ => p.2
  | p0 :: p1 :: rest, x =>
    if x < p1.1 then p0.2 + (p1.2 - p0.2) * (x - p0.1) / (p1.1 - p0.1)
    else npInterpSeg (p1 :: rest) x

/-- Model of `np.interp x xp fp`: left of the first breakpoint the first value,
otherwise the interior segment formula. -/
def npInterp (points : List (ℚ × ℚ)) (x : ℚ) : ℚ :=
  match points with
  | [] => 0
  | p0 :: _ => if x ≤ p0.1 then p0.2 else npInterpSeg points x

/-- One element of `interpolate_voltage_from_soc_vectorized`:
`np.interp (np.clip x 0 100) _CURVE_SOC _CURVE_V`. -/
def curveApply (soc : ℚ) : ℚ := npInterp SOC_VOLTAGE_CURVE (min (max soc 0) 100)

/-- Model of `interpolate_voltage_from_soc_vectorized` over an array of SOCs. -/
def interpolate_voltage_from_soc_vectorized (soc_percent : List ℚ) : List ℚ :=
  soc_percent.map curveApply

/- ----------------------------------------------------------------
   BatteryPack (simulation_objects.py lines 80-228)
   ---------------------------------------------------------------- -/

/-- Per-cell arrays and caches of a `BatteryPack`.  `num_cells` is the
dataclass field of the same name (a constant 44 in the source, never
re-derived from the arrays). -/
structure BatteryPack where
  cell_soc : List ℚ
  cell_voltage : List ℚ
  cell_temperature : List ℚ
  cell_current : List ℚ
  coolant_in_temp : ℚ
  coolant_out_temp : ℚ
  coolant_mass_flow_rate_kg_s : ℚ
  last_total_heat_W : ℚ
  average_soc : ℚ
  num_cells : ℕ
deriving DecidableEq

/-- Model of `float(arr.mean())` on a numpy array, as rational sum / length. -/
def listMean (l : List ℚ) : ℚ := l.sum / (l.length : ℚ)

/-- Model of `np.clip(x, 0.0, 100.0)` on one element. -/
def clip0100 (x : ℚ) : ℚ := min (max x 0) 100

/-- Lines 164-170: uniform per-cell current `power_w / denom` with the
epsilon-floored voltage-sum denominator. -/
def BatteryPack.current_per_cell (p : BatteryPack) (power_w : ℚ) : ℚ :=
  let sum_voltage := (interpolate_voltage_from_soc_vectorized p.cell_soc).sum
  let denom := if sum_voltage > 1 / 1000000 then sum_voltage else 1 / 1000000
  power_w / denom

/-- Lines 172-174: SOC delta from the uniform current over the step. -/
def BatteryPack.delta_soc (p : BatteryPack) (power_w time_step_s : ℚ) : ℚ :=
  (p.current_per_cell power_w * time_step_s / 3600) / CELL_CAPACITY_AH * 100

/-- Lines 175-176: `soc += delta_soc; np.clip(soc, 0, 100, out=soc)`. -/
def BatteryPack.soc_after_clip (p : BatteryPack) (power_w time_step_s : ℚ) : List ℚ :=
  p.cell_soc.map (fun s => clip0100 (s + p.delta_soc power_w time_step_s))

/-- Lines 190-191: SOC bled by the constant balancing current over the step. -/
def bleed_delta_soc (time_step_s : ℚ) : ℚ :=
  (BALANCING_BLEED_CURRENT_A * time_step_s / 3600) / CELL_CAPACITY_AH * 100

/-- Lines 183-194: balancing fires only when the post-update mean SOC is in a
top/bottom window, the bleed current is positive and some cell exceeds the
mean. -/
def BatteryPack.balancing_active (p : BatteryPack) (power_w time_step_s : ℚ) : Bool :=
  let socs1 := p.soc_after_clip power_w time_step_s
  let avg := listMean socs1
  (decide (avg ≥ BALANCING_TOP_SOC_START) || decide (avg ≤ BALANCING_BOTTOM_SOC_END)) &&
    decide (BALANCING_BLEED_CURRENT_A > 0) && socs1.any (fun s => decide (s > avg))

/-- Lines 183-199: the SOC array after the (conditional) balancing bleed and
its trailing `np.clip`. -/
def BatteryPack.soc_after_balancing (p : BatteryPack) (power_w time_step_s : ℚ) : List ℚ :=
  let socs1 := p.soc_after_clip power_w time_step_s
  let avg := listMean socs1
  if p.balancing_active power_w time_step_s then
    (socs1.map (fun s => if s > avg then max 0 (s - bleed_delta_soc time_step_s) else s)).map
      clip0100
  else socs1

/-- Lines 196-198: heat of the balancing resistors (zero when balancing does
not fire). -/
def BatteryPack.bleed_heat_W (p : BatteryPack) (power_w time_step_s : ℚ) : ℚ :=
  let socs1 := p.soc_after_clip power_w time_step_s
  let avg := listMean socs1
  if p.balancing_active power_w time_step_s then
    BALANCING_BLEED_CURRENT_A ^ 2 * CELL_INTERNAL_RESISTANCE_OHMS *
      ((socs1.filter (fun s => decide (s > avg))).length : ℚ)
  else 0

/-- Lines 204-215: the four L2 calibration masks applied to one cell (`s` the
cell's SOC, `v` its voltage), followed by the final array-wide clip being done
separately. -/
def calibrate_cell (sv : ℚ × ℚ) : ℚ :=
  let s := sv.1
  let v := sv.2
  let s1 := if v ≤ L2_CUTOFF_LOW_VOLTAGE then max s MIN_SAFE_SOC else s
  let s2 := if L2_CUTOFF_LOW_VOLTAGE < v ∧ v ≤ L2_CALIBRATE_LOW_VOLTAGE then max s1 6 else s1
  let s3 := if v ≥ L2_CUTOFF_HIGH_VOLTAGE then min s2 100 else s2
  if L2_CALIBRATE_HIGH_VOLTAGE ≤ v ∧ v < L2_CUTOFF_HIGH_VOLTAGE then min s3 (99.2 : ℚ) else s3

/-- Source `BatteryPack.update_state` (lines 157-222): current split, SOC update and
clip, balancing, voltage recompute, L2 calibration, final clip, heat and mean
caches.  The stored voltage is the one recomputed after balancing (line 179 or
201); the source does not recompute it after the calibration masks. -/
def BatteryPack.update_state (p : BatteryPack) (power_w time_step_s : ℚ) : BatteryPack :=
  let current := p.current_per_cell power_w
  let socs2 := p.soc_after_balancing power_w time_step_s
  let v2 := interpolate_voltage_from_soc_vectorized socs2
  let socs3 := ((socs2.zip v2).map calibrate_cell).map clip0100
  let main_heat_W := current ^ 2 * (p.num_cells : ℚ) * CELL_INTERNAL_RESISTANCE_OHMS
  { p with
    cell_soc := socs3
    cell_voltage := v2
    cell_current := List.replicate p.num_cells current
    last_total_heat_W := main_heat_W + p.bleed_heat_W power_w time_step_s
    average_soc := listMean socs3 }

/- ----------------------------------------------------------------
   BatteryRack (lines 231-254)
   ---------------------------------------------------------------- -/

structure BatteryRack where
  packs : List BatteryPack
  average_soc : ℚ
deriving DecidableEq

/-- Source `BatteryRack.update_state`: equal power split across packs, mean-of-means
SOC rollup; a rack without packs returns unchanged. -/
def BatteryRack.update_state (r : BatteryRack) (power_w time_step_s : ℚ) : BatteryRack :=
  if r.packs = [] then r
  else
    let packs2 := r.packs.map fun p =>
      p.update_state (power_w / (r.packs.length : ℚ)) time_step_s
    { r with packs := packs2, average_soc := listMean (packs2.map (·.average_soc)) }

/- ----------------------------------------------------------------
   Chiller (lines 257-284)
   ---------------------------------------------------------------- -/

structure Chiller where
  max_cooling_capacity_W : ℚ
  total_flow_rate_m3_s : ℚ
  supply_temp_setpoint_C : ℚ
  current_supply_temp_C : ℚ
deriving DecidableEq

/-- Source `Chiller.update_supply_temperature`: required removal from the
return-to-setpoint delta, clamped by capacity, translated back to an
achievable supply temperature with an epsilon-floored divisor, then a
first-order filter with alpha = 0.5. -/
def Chiller.update_supply_temperature (ch : Chiller) (return_temp_C : ℚ) : Chiller :=
  let m_dot_kg_s := FLUID_DENSITY_KG_M3 * max ch.total_flow_rate_m3_s 0
  let cp := FLUID_SPECIFIC_HEAT_J_KG_K
  let desired_return_to_supply_delta := max 0 (return_temp_C - ch.supply_temp_setpoint_C)
  let q_req := m_dot_kg_s * cp * desired_return_to_supply_delta
  let q_actual := min q_req ch.max_cooling_capacity_W
  let achievable_delta := q_actual / max (1 / 1000000) (m_dot_kg_s * cp)
  let achievable_supply := max 0 (return_temp_C - achievable_delta)
  let alpha : ℚ := 0.5
  { ch with current_supply_temp_C :=
      (1 - alpha) * ch.current_supply_temp_C + alpha * achievable_supply }

/- ----------------------------------------------------------------
   BatteryContainer (lines 287-371)
   ---------------------------------------------------------------- -/

structure BatteryContainer where
  id : String
  racks : List BatteryRack
  chiller : Chiller
  soc : ℚ
deriving DecidableEq

/-- Source `update_thermal_fluid_model` (lines 306-335): per-pack outlet temperatures
from cached heat, mixed return temperature, chiller update; with zero packs
the chiller sees its own supply temperature back. -/
def BatteryContainer.update_thermal_fluid_model (c : BatteryContainer) : BatteryContainer :=
  let num_packs := (c.racks.map (fun r => r.packs.length)).sum
  let flow_per_pack_m3_s := c.chiller.total_flow_rate_m3_s / ((max 1 num_packs : ℕ) : ℚ)
  let m_dot_per_pack_kg_s := flow_per_pack_m3_s * FLUID_DENSITY_KG_M3
  let supply := c.chiller.current_supply_temp_C
  if num_packs ≠ 0 then
    let cp := FLUID_SPECIFIC_HEAT_J_KG_K
    let racks2 := c.racks.map fun r =>
      { r with packs := r.packs.map fun p =>
          { p with
            coolant_in_temp := supply
            coolant_out_temp :=
              supply + p.last_total_heat_W / max (1 / 1000000) (m_dot_per_pack_kg_s * cp) } }
    let outs := (racks2.map (fun r => r.packs.map (·.coolant_out_temp))).flatten
    { c with racks := racks2,
             chiller := c.chiller.update_supply_temperature (listMean outs) }
  else { c with chiller := c.chiller.update_supply_temperature supply }

/-- All stored cell voltages of the container, in rack-then-pack order, as
scanned by `get_cell_voltage_extrema`. -/
def BatteryContainer.all_cell_voltages (c : BatteryContainer) : List ℚ :=
  (c.racks.map (fun r => (r.packs.map (·.cell_voltage)).flatten)).flatten

/-- Source `get_min_cell_voltage` via `get_cell_voltage_extrema`: min over every
stored cell voltage, 0.0 when there are no cells. -/
def BatteryContainer.get_min_cell_voltage (c : BatteryContainer) : ℚ :=
  match c.all_cell_voltages with
  | [] => 0
  | v :: vs => vs.foldl min v

/-- Source `get_max_cell_voltage` via `get_cell_voltage_extrema`: max over every
stored cell voltage, 0.0 when there are no cells. -/
def BatteryContainer.get_max_cell_voltage (c : BatteryContainer) : ℚ :=
  match c.all_cell_voltages with
  | [] => 0
  | v :: vs => vs.foldl max v

/-- Source `BatteryContainer.update_state` (lines 362-371): equal split across racks,
SOC rollup, then the thermal model. -/
def BatteryContainer.update_state (c : BatteryContainer) (power_w time_step_s : ℚ) :
    BatteryContainer :=
  if c.racks = [] then c
  else
    let racks2 := c.racks.map fun r =>
      r.update_state (power_w / (c.racks.length : ℚ)) time_step_s
    let c2 : BatteryContainer :=
      { c with racks := racks2, soc := listMean (racks2.map fun r => r.average_soc) }
    c2.update_thermal_fluid_model

/- ----------------------------------------------------------------
   InverterGroup (lines 374-402)
   ---------------------------------------------------------------- -/

structure InverterGroup where
  id : String
  containers : List BatteryContainer
  last_commanded_power_mw : ℚ
  last_applied_power_mw : ℚ
deriving DecidableEq

/-- Source `InverterGroup.update_state` (lines 381-402): with no containers an
immediate return before any field is written; otherwise record the command,
apply the weak-link interlock (voltage-based or SOC-based per configuration),
split the post-interlock power equally and record it as applied. -/
def InverterGroup.update_state (g : InverterGroup) (power_mw time_step_s : ℚ) : InverterGroup :=
  if g.containers = [] then g
  else
    let charging := power_mw > 0
    let discharging := power_mw < 0
    let p1 :=
      if WEAK_LINK_CUTOFF_BY_VOLTAGE then
        let pa :=
          if charging ∧
              g.containers.any
                (fun c => decide (c.get_max_cell_voltage ≥ L2_CUTOFF_HIGH_VOLTAGE)) = true then
            (0 : ℚ)
          else power_mw
        if discharging ∧
            g.containers.any
              (fun c => decide (c.get_min_cell_voltage ≤ L2_CUTOFF_LOW_VOLTAGE)) = true then
          (0 : ℚ)
        else pa
      else
        let pa :=
          if charging ∧ g.containers.any (fun c => decide (c.soc ≥ MAX_SAFE_SOC)) = true then
            (0 : ℚ)
          else power_mw
        if discharging ∧ g.containers.any (fun c => decide (c.soc ≤ MIN_SAFE_SOC)) = true then
          (0 : ℚ)
        else pa
    let power_w := p1 * 1000000
    let containers2 := g.containers.map fun c =>
      c.update_state (power_w / (g.containers.length : ℚ)) time_step_s
    { g with containers := containers2,
             last_commanded_power_mw := power_mw,
             last_applied_power_mw := p1 }

/- ----------------------------------------------------------------
   Test sequence steps (config SIMULATION_CONFIG['test_sequence'] entries)
   ---------------------------------------------------------------- -/

/-- The recognized contents of a step's `taper_settings` dict. -/
structure TaperSettings where
  start_soc_percent : Option ℚ
  end_power_mw : Option ℚ
deriving DecidableEq

/-- One sequence step descriptor: name, first-present-wins duration,
power command (`command_type` with its real-power value) and optional taper. -/
structure SequenceStep where
  step_name : String
  duration_seconds : Option ℤ
  duration_minutes : Option ℚ
  duration_hours : Option ℚ
  command_type : String
  real_power_mw : ℚ
  taper_settings : Option TaperSettings
deriving DecidableEq

/-- Model of Python `int(...)` on a float: truncation toward zero. -/
def intTrunc (q : ℚ) : ℤ := if q < 0 then -((-q).floor) else q.floor

/-- Lines 524-532 of `_update_by_sequence`: duration in seconds, seconds key
first, then minutes, then hours, floored at 0. -/
def SequenceStep.duration_s (st : SequenceStep) : ℤ :=
  max 0 (match st.duration_seconds, st.duration_minutes, st.duration_hours with
    | some d, _, _ => d
    | none, some m, _ => intTrunc (m * 60)
    | none, none, some h => intTrunc (h * 3600)
    | none, none, none => 0)

/- ----------------------------------------------------------------
   BESS_Site (lines 405-574)
   ---------------------------------------------------------------- -/

structure BESS_Site where
  inverter_groups : List InverterGroup
  current_time_s : ℚ
  test_state : String
  state_time_s : ℚ
  current_site_power_target_mw : ℚ
  sequence_enabled : Bool
  sequence : List SequenceStep
  seq_index : ℕ
  seq_elapsed_s : ℚ
deriving DecidableEq

/-- Source `any_container_soc_at_or_above` (lines 431-436). -/
def BESS_Site.any_container_soc_at_or_above (s : BESS_Site) (threshold_percent : ℚ) : Bool :=
  s.inverter_groups.any fun g =>
    g.containers.any fun c => decide (c.soc ≥ threshold_percent)

/-- Source `any_container_soc_at_or_below` (lines 438-443). -/
def BESS_Site.any_container_soc_at_or_below (s : BESS_Site) (threshold_percent : ℚ) : Bool :=
  s.inverter_groups.any fun g =>
    g.containers.any fun c => decide (c.soc ≤ threshold_percent)

/-- Source `_update_by_sequence` (lines 518-560): exhausted cursor sets DONE and
target 0; otherwise the current step's duration, negated external power
command, optional linear taper by elapsed fraction, bookkeeping fields, and
cursor advance once the accumulated elapsed time reaches the duration. -/
def BESS_Site.update_by_sequence (s : BESS_Site) (time_step_s : ℚ) : BESS_Site :=
  match s.sequence.get? s.seq_index with
  | none => { s with test_state := "DONE", current_site_power_target_mw := 0 }
  | some step =>
    let dur_s := step.duration_s
    let base : ℚ := if step.command_type = "idle" then 0 else -step.real_power_mw
    let target :=
      match step.taper_settings with
      | some tp =>
        if dur_s > 0 then
          let end_power := tp.end_power_mw.getD base
          let frac := min 1 (max 0 (s.seq_elapsed_s / ((max 1 dur_s : ℤ) : ℚ)))
          (1 - frac) * base + frac * end_power
        else base
      | none => base
    let elapsed2 := s.seq_elapsed_s + time_step_s
    if elapsed2 ≥ (dur_s : ℚ) then
      { s with current_site_power_target_mw := target, state_time_s := s.seq_elapsed_s,
               test_state := step.step_name, seq_index := s.seq_index + 1, seq_elapsed_s := 0 }
    else
      { s with current_site_power_target_mw := target, state_time_s := s.seq_elapsed_s,
               test_state := step.step_name, seq_elapsed_s := elapsed2 }

/-- The (test_state, state_time_s, target) slice of the site that the built-in
test-cycle state machine reads and writes. -/
structure MachineView where
  test_state : String
  state_time_s : ℚ
  target_mw : ℚ
deriving DecidableEq

def BESS_Site.machineView (s : BESS_Site) : MachineView :=
  ⟨s.test_state, s.state_time_s, s.current_site_power_target_mw⟩

/-- The built-in test-cycle state machine of `update_test_state`
(lines 449-516), acting on its slice of the site state.  The two container-SOC
checks it performs (in CONST_CHARGE and CONST_DISCHARGE) are passed in as the
booleans `above98` and `below8`.  The final unconditional
`state_time_s += time_step_s` of line 516 is included. -/
def cycleStep (time_step_s : ℚ) (above98 below8 : Bool) (m : MachineView) : MachineView :=
  let m2 :=
    if m.test_state = "IDLE" then
      { m with test_state := "INIT", state_time_s := 0, target_mw := 0 }
    else if m.test_state = "INIT" then
      { m with test_state := "RAMP_CHARGE", state_time_s := 0, target_mw := 0 }
    else if m.test_state = "RAMP_CHARGE" then
      let frac := min 1 (m.state_time_s / ((max 1 RAMP_DURATION_SECONDS : ℤ) : ℚ))
      let m1 := { m with target_mw := frac * SITE_TARGET_POWER_MW }
      if m.state_time_s ≥ ((RAMP_DURATION_SECONDS : ℤ) : ℚ) then
        { m1 with test_state := "CONST_CHARGE", state_time_s := 0,
                  target_mw := SITE_TARGET_POWER_MW }
      else m1
    else if m.test_state = "CONST_CHARGE" then
      let m1 := { m with target_mw := SITE_TARGET_POWER_MW }
      if above98 then { m1 with test_state := "TAPER_TO_REST", state_time_s := 0 } else m1
    else if m.test_state = "TAPER_TO_REST" then
      let frac := min 1 (m.state_time_s / ((max 1 CHARGE_TAPER_DURATION_SECONDS : ℤ) : ℚ))
      let m1 := { m with target_mw := (1 - frac) * SITE_TARGET_POWER_MW }
      if m.state_time_s ≥ ((CHARGE_TAPER_DURATION_SECONDS : ℤ) : ℚ) then
        { m1 with test_state := "HEAT_SOAK", state_time_s := 0, target_mw := 0 }
      else m1
    else if m.test_state = "HEAT_SOAK" then
      let m1 := { m with target_mw := 0 }
      if m.state_time_s ≥ ((intTrunc (HEAT_SOAK_DURATION_HOURS * 3600) : ℤ) : ℚ) then
        { m1 with test_state := "RAMP_DISCHARGE", state_time_s := 0 }
      else m1
    else if m.test_state = "RAMP_DISCHARGE" then
      let frac := min 1 (m.state_time_s / ((max 1 RAMP_DURATION_SECONDS : ℤ) : ℚ))
      let m1 := { m with target_mw := -frac * SITE_TARGET_POWER_MW }
      if m.state_time_s ≥ ((RAMP_DURATION_SECONDS : ℤ) : ℚ) then
        { m1 with test_state := "CONST_DISCHARGE", state_time_s := 0,
                  target_mw := -SITE_TARGET_POWER_MW }
      else m1
    else if m.test_state = "CONST_DISCHARGE" then
      let m1 := { m with target_mw := -SITE_TARGET_POWER_MW }
      if below8 then { m1 with test_state := "TAPER_TO_FINISH", state_time_s := 0 } else m1
    else if m.test_state = "TAPER_TO_FINISH" then
      let frac := min 1 (m.state_time_s / ((max 1 DISCHARGE_TAPER_DURATION_SECONDS : ℤ) : ℚ))
      let m1 := { m with target_mw := (1 - frac) * -SITE_TARGET_POWER_MW }
      if m.state_time_s ≥ ((DISCHARGE_TAPER_DURATION_SECONDS : ℤ) : ℚ) then
        { m1 with test_state := "DONE", state_time_s := 0, target_mw := 0 }
      else m1
    else if m.test_state = "DONE" then
      { m with target_mw := 0 }
    else m
  { m2 with state_time_s := m2.state_time_s + time_step_s }

/-- Source `update_test_state` (lines 445-516): dispatch to the sequence interpreter
when enabled, otherwise run the built-in state machine on the site's machine
slice, feeding it the two container-SOC threshold checks. -/
def BESS_Site.update_test_state (s : BESS_Site) (time_step_s : ℚ) : BESS_Site :=
  if s.sequence_enabled then s.update_by_sequence time_step_s
  else
    let m := cycleStep time_step_s
      (s.any_container_soc_at_or_above CHARGE_TAPER_SOC_THRESHOLD)
      (s.any_container_soc_at_or_below DISCHARGE_TAPER_SOC_THRESHOLD)
      s.machineView
    { s with test_state := m.test_state, state_time_s := m.state_time_s,
             current_site_power_target_mw := m.target_mw }

/-- Source `run_time_step` (lines 565-574): update the test state, split the new
target equally over the inverter groups (skipped if there are none), advance
the clock. -/
def BESS_Site.run_time_step (s : BESS_Site) (time_step_s : ℚ) : BESS_Site :=
  let s1 := s.update_test_state time_step_s
  if s1.inverter_groups = [] then
    { s1 with current_time_s := s1.current_time_s + time_step_s }
  else
    let power_per_group_mw := s1.current_site_power_target_mw / (s1.inverter_groups.length : ℚ)
    { s1 with
      inverter_groups := s1.inverter_groups.map fun g =>
        g.update_state power_per_group_mw time_step_s
      current_time_s := s1.current_time_s + time_step_s }

/-- Iteration of `run_time_step`, n times. -/
def BESS_Site.stepN (time_step_s : ℚ) : ℕ → BESS_Site → BESS_Site
  | 0, s => s
  | n + 1, s => BESS_Site.stepN time_step_s n (s.run_time_step time_step_s)

/-- Iterates of the built-in machine with both SOC checks false (the regime in
which the machine never reads them). -/
def cycleIter (time_step_s : ℚ) : ℕ → MachineView → MachineView
  | 0, m => m
  | n + 1, m => cycleIter time_step_s n (cycleStep time_step_s false false m)

/-- States of the built-in machine in which `update_test_state` reads no
container SOC at all. -/
def machineSafe (m : MachineView) : Prop :=
  m.test_state = "IDLE" ∨ m.test_state = "INIT" ∨ m.test_state = "RAMP_CHARGE"

instance (m : MachineView) : Decidable (machineSafe m) := by
  unfold machineSafe; infer_instance

/- ----------------------------------------------------------------
   Simulation runner (simulation_runner.py lines 14-32)
   ---------------------------------------------------------------- -/

/-- Source `execute_simulation_step`: the potentially unbounded loop is
given explicit fuel; each iteration advances the site, yields it, then stops
on test_state "DONE" or an exhausted step budget.  The returned list is the
sequence of yielded snapshots. -/
def execute_simulation_step (time_step_s : ℚ) (max_steps : Option ℕ) :
    ℕ → ℕ → BESS_Site → List BESS_Site
  | 0, _, _ => []
  | fuel + 1, steps_run, site =>
    let site2 := site.run_time_step time_step_s
    let steps_run2 := steps_run + 1
    site2 ::
      (if site2.test_state = "DONE" then []
       else
         match max_steps with
         | some m =>
           if steps_run2 ≥ m then []
           else execute_simulation_step time_step_s max_steps fuel steps_run2 site2
         | none => execute_simulation_step time_step_s max_steps fuel steps_run2 site2)

/- ----------------------------------------------------------------
   The spec's chiller formula, and concrete states used in the
   claim-level theorems below
   ---------------------------------------------------------------- -/

/-- The chiller supply-temperature formula exactly as the specification words
it (refinement comparison target): `0.5·previous + 0.5·achievable` with
`achievable = max(0, return − min(m_dot·cp·max(0, return−setpoint),
max_capacity)/(m_dot·cp))` and `m_dot` the total mass flow — no epsilon floor
on the divisor. -/
def chiller_spec_supply (ch : Chiller) (return_temp_C : ℚ) : ℚ :=
  let m_dot := FLUID_DENSITY_KG_M3 * ch.total_flow_rate_m3_s
  let cp := FLUID_SPECIFIC_HEAT_J_KG_K
  let achievable := max 0 (return_temp_C -
    min (m_dot * cp * max 0 (return_temp_C - ch.supply_temp_setpoint_C))
      ch.max_cooling_capacity_W / (m_dot * cp))
  (1 / 2) * ch.current_supply_temp_C + (1 / 2) * achievable

/-- A pack of `n` identical cells at SOC `soc`, voltages stored consistently
with the curve, no accumulated heat. -/
def packUniform (n : ℕ) (soc : ℚ) : BatteryPack :=
  { cell_soc := List.replicate n soc
    cell_voltage := List.replicate n (curveApply soc)
    cell_temperature := List.replicate n 25
    cell_current := List.replicate n 0
    coolant_in_temp := AMBIENT_TEMPERATURE_C
    coolant_out_temp := AMBIENT_TEMPERATURE_C
    coolant_mass_flow_rate_kg_s := 0
    last_total_heat_W := 0
    average_soc := soc
    num_cells := n }

/-- The default chiller of `BatteryContainer` (capacity 40700 W, 0.02 m³/s,
setpoint and initial supply 20 °C). -/
def defaultChiller : Chiller :=
  { max_cooling_capacity_W := 40700
    total_flow_rate_m3_s := 1 / 50
    supply_temp_setpoint_C := 20
    current_supply_temp_C := 20 }

/-- A default-layout container: 9 racks of 9 packs of 44 cells, all at SOC
`soc`. -/
def containerUniform (soc : ℚ) : BatteryContainer :=
  { id := "C"
    racks := List.replicate 9 { packs := List.replicate 9 (packUniform 44 soc), average_soc := soc }
    chiller := defaultChiller
    soc := soc }

/-- A minimal container (one rack, one pack, one cell) at SOC `soc`. -/
def containerSmall (soc : ℚ) : BatteryContainer :=
  { id := "c"
    racks := [{ packs := [packUniform 1 soc], average_soc := soc }]
    chiller := defaultChiller
    soc := soc }

/-- An inverter group owning a single one-cell container at 5.0 % SOC, whose
stored cell voltage is exactly the 2.8 V low-voltage cutoff. -/
def groupLowCell : InverterGroup :=
  { id := "G1", containers := [containerSmall 5],
    last_commanded_power_mw := 0, last_applied_power_mw := 0 }

/-- An inverter group with an empty containers list and nonzero recorded
powers. -/
def groupEmpty : InverterGroup :=
  { id := "G0", containers := [], last_commanded_power_mw := 3, last_applied_power_mw := 4 }

/-- A 1-group / 1-container site in the built-in test-cycle mode, starting in
IDLE with zero timers and target. -/
def siteRamp : BESS_Site :=
  { inverter_groups := [{ id := "G1", containers := [containerUniform 8],
                          last_commanded_power_mw := 0, last_applied_power_mw := 0 }]
    current_time_s := 0
    test_state := "IDLE"
    state_time_s := 0
    current_site_power_target_mw := 0
    sequence_enabled := false
    sequence := []
    seq_index := 0
    seq_elapsed_s := 0 }

/-- A groupless site already in the terminal DONE state (used to exercise the
runner). -/
def siteDone : BESS_Site :=
  { inverter_groups := []
    current_time_s := 0
    test_state := "DONE"
    state_time_s := 0
    current_site_power_target_mw := 0
    sequence_enabled := false
    sequence := []
    seq_index := 0
    seq_elapsed_s := 0 }

/-- The sequence step of the taper property: 100 s duration, real power
command +10 MW (external convention), taper to 0 MW. -/
def stepTaper : SequenceStep :=
  { step_name := "Step"
    duration_seconds := some 100
    duration_minutes := none
    duration_hours := none
    command_type := "real"
    real_power_mw := 10
    taper_settings := some { start_soc_percent := none, end_power_mw := some 0 } }

/-- A sequence-mode site sitting on `stepTaper` with elapsed time `e`. -/
def siteTaper (e : ℚ) : BESS_Site :=
  { inverter_groups := []
    current_time_s := 0
    test_state := "SEQUENCE"
    state_time_s := 0
    current_site_power_target_mw := 0
    sequence_enabled := true
    sequence := [stepTaper]
    seq_index := 0
    seq_elapsed_s := e }

/-- A chiller with a tiny but positive flow rate (10⁻¹³ m³/s), small enough
that `m_dot·cp` falls under the source's 10⁻⁶ epsilon floor. -/
def chillerTiny : Chiller :=
  { max_cooling_capacity_W := 40700
    total_flow_rate_m3_s := 1 / 10000000000000
    supply_temp_setpoint_C := 20
    current_supply_temp_C := 20 }

/- ----------------------------------------------------------------
   Interpolator lemmas and claim C4
   ---------------------------------------------------------------- -/

theorem npInterpSeg_head (p : ℚ × ℚ) (rest : List (ℚ × ℚ))
    (hchain : List.Chain' (fun a b : ℚ × ℚ => a.1 < b.1) (p :: rest)) :
    npInterpSeg (p :: rest) p.1 = p.2 := by
  cases rest with
  | nil => rfl
  | cons q rest2 =>
    have hpq : p.1 < q.1 := (List.chain'_cons.mp hchain).1
    simp [npInterpSeg, hpq]

theorem interpLoop_eq_npInterpSeg (pts : List (ℚ × ℚ)) (x : ℚ)
    (hchain : List.Chain' (fun a b : ℚ × ℚ => a.1 < b.1) pts) :
    interpLoop pts x = npInterpSeg pts x := by
  induction pts with
  | nil => rfl
  | cons p0 rest ih =>
    cases rest with
    | nil => rfl
    | cons p1 rest2 =>
      have h01 : (p0.1 : ℚ) < p1.1 := (List.chain'_cons.mp hchain).1
      have htail := (List.chain'_cons.mp hchain).2
      by_cases hle : x ≤ p1.1
      · by_cases hlt : x < p1.1
        · simp only [interpLoop, npInterpSeg, if_pos hle, if_pos hlt, if_neg (ne_of_gt h01)]
          ring
        · have heq : x = p1.1 := le_antisymm hle (not_lt.mp hlt)
          subst heq
          simp only [interpLoop, npInterpSeg, if_pos le_rfl, if_neg (lt_irrefl p1.1),
            if_neg (ne_of_gt h01)]
          rw [npInterpSeg_head p1 rest2 htail, div_self (sub_ne_zero.mpr (ne_of_gt h01)),
            one_mul]
          ring
      · simp only [interpLoop, npInterpSeg, if_neg hle, if_neg fun h => hle (le_of_lt h)]
        exact ih htail

theorem curve_chain :
    List.Chain' (fun a b : ℚ × ℚ => a.1 < b.1) SOC_VOLTAGE_CURVE := by
  norm_num [SOC_VOLTAGE_CURVE, List.chain'_cons, List.chain'_singleton]

theorem clamp_comm (soc : ℚ) : max 0 (min 100 soc) = min (max soc 0) 100 := by
  rcases le_total soc 0 with h | h
  · rw [min_eq_right (le_trans h (by norm_num)), max_eq_left h, max_eq_right h,
      min_eq_left (by norm_num : (0 : ℚ) ≤ 100)]
  · rcases le_total soc 100 with h2 | h2
    · rw [min_eq_right h2, max_eq_right h, max_eq_left h, min_eq_left h2]
    · rw [min_eq_left h2, max_eq_right (by norm_num : (0 : ℚ) ≤ 100), max_eq_left h,
        min_eq_right h2]

theorem scalar_eq_curveApply (soc : ℚ) :
    interpolate_voltage_from_soc SOC_VOLTAGE_CURVE soc = curveApply soc := by
  rw [interpolate_voltage_from_soc, curveApply, clamp_comm]
  have hc0 : 0 ≤ min (max soc 0) 100 := le_min (le_max_right _ _) (by norm_num)
  by_cases hcz : min (max soc 0) 100 ≤ 0
  · rw [le_antisymm hcz hc0]
    norm_num [SOC_VOLTAGE_CURVE, interpLoop, npInterp, npInterpSeg]
  · have hseg : npInterp SOC_VOLTAGE_CURVE (min (max soc 0) 100) =
        npInterpSeg SOC_VOLTAGE_CURVE (min (max soc 0) 100) := by
      simp only [npInterp, SOC_VOLTAGE_CURVE]
      rw [if_neg (by simpa using hcz)]
    rw [hseg]
    exact interpLoop_eq_npInterpSeg _ _ curve_chain

/-- Claim C4: for every SOC input (of any sign or magnitude, including values
outside [0,100] and values exactly at control points), the batch
(np.interp-based) interpolator applied to an array yields, position by
position, exactly the voltage the scalar interpolator gives on the same
value. -/
theorem claimC4_theorem (socs : List ℚ) :
    interpolate_voltage_from_soc_vectorized socs =
      socs.map (interpolate_voltage_from_soc SOC_VOLTAGE_CURVE) := by
  unfold interpolate_voltage_from_soc_vectorized
  exact List.map_congr_left fun x _ => (scalar_eq_curveApply x).symm

/- ----------------------------------------------------------------
   Pack-update lemmas and claims C2, C3, C8
   ---------------------------------------------------------------- -/

theorem update_state_cell_soc (p : BatteryPack) (w t : ℚ) :
    (p.update_state w t).cell_soc =
      (((p.soc_after_balancing w t).zip
        (interpolate_voltage_from_soc_vectorized (p.soc_after_balancing w t))).map
          calibrate_cell).map clip0100 := rfl

theorem update_state_cell_voltage (p : BatteryPack) (w t : ℚ) :
    (p.update_state w t).cell_voltage =
      (p.soc_after_balancing w t).map curveApply := rfl

theorem clip0100_nonneg (x : ℚ) : 0 ≤ clip0100 x :=
  le_min (le_max_right x 0) (by norm_num)

theorem clip0100_le (x : ℚ) : clip0100 x ≤ 100 := min_le_right _ _

theorem clip0100_eq_self (x : ℚ) (h0 : 0 ≤ x) (h1 : x ≤ 100) : clip0100 x = x := by
  rw [clip0100, max_eq_left h0, min_eq_left h1]

theorem zip_self_map {α β : Type} (l : List α) (g : α → β) :
    l.zip (l.map g) = l.map fun a => (a, g a) := by
  induction l with
  | nil => rfl
  | cons a t ih => simp [ih]

theorem curveApply_nonpos (s : ℚ) (hs : s ≤ 0) : curveApply s = 2.5 := by
  rw [curveApply, max_eq_right hs, min_eq_left (by norm_num : (0 : ℚ) ≤ 100)]
  norm_num [npInterp, SOC_VOLTAGE_CURVE]

theorem curveApply_ge100 (s : ℚ) (hs : 100 ≤ s) : curveApply s = 3.65 := by
  rw [curveApply, max_eq_left (le_trans (by norm_num) hs), min_eq_right hs]
  norm_num [npInterp, npInterpSeg, SOC_VOLTAGE_CURVE]

theorem soc_nonneg_of_curve_gt (s : ℚ)
    (h : L2_CALIBRATE_LOW_VOLTAGE < curveApply s) : 0 ≤ s := by
  by_contra h0
  push_neg at h0
  rw [curveApply_nonpos s h0.le] at h
  norm_num [L2_CALIBRATE_LOW_VOLTAGE] at h

theorem soc_le100_of_curve_lt (s : ℚ)
    (h : curveApply s < L2_CALIBRATE_HIGH_VOLTAGE) : s ≤ 100 := by
  by_contra h0
  push_neg at h0
  rw [curveApply_ge100 s h0.le] at h
  norm_num [L2_CALIBRATE_HIGH_VOLTAGE] at h

theorem curveApply_zero : curveApply 0 = 2.5 := by
  norm_num [curveApply, npInterp, npInterpSeg, SOC_VOLTAGE_CURVE, max_def, min_def]

theorem curveApply_five : curveApply 5 = 2.8 := by
  norm_num [curveApply, npInterp, npInterpSeg, SOC_VOLTAGE_CURVE, max_def, min_def]

theorem curveApply_min_safe : curveApply (26 / 5) = 703 / 250 := by
  norm_num [curveApply, npInterp, npInterpSeg, SOC_VOLTAGE_CURVE, max_def, min_def]

theorem curveApply_fifty : curveApply 50 = 83 / 25 := by
  norm_num [curveApply, npInterp, npInterpSeg, SOC_VOLTAGE_CURVE, max_def, min_def]

theorem pack_zero_current (p : BatteryPack) : p.current_per_cell 0 = 0 := by
  simp [BatteryPack.current_per_cell]

theorem pack_zero_delta (p : BatteryPack) (t : ℚ) : p.delta_soc 0 t = 0 := by
  simp [BatteryPack.delta_soc, pack_zero_current]

theorem pack_zero_soc_after_clip (p : BatteryPack) (t : ℚ)
    (hbounds : ∀ s ∈ p.cell_soc, 0 ≤ s ∧ s ≤ 100) :
    p.soc_after_clip 0 t = p.cell_soc := by
  rw [BatteryPack.soc_after_clip, pack_zero_delta]
  conv_rhs => rw [← List.map_id p.cell_soc]
  refine List.map_congr_left fun a ha => ?_
  rw [add_zero]
  exact clip0100_eq_self a (hbounds a ha).1 (hbounds a ha).2

theorem pack_zero_balancing_off (p : BatteryPack) (t : ℚ)
    (hmean1 : BALANCING_BOTTOM_SOC_END < listMean p.cell_soc)
    (hmean2 : listMean p.cell_soc < BALANCING_TOP_SOC_START)
    (hbounds : ∀ s ∈ p.cell_soc, 0 ≤ s ∧ s ≤ 100) :
    p.balancing_active 0 t = false := by
  have h1 : decide (listMean p.cell_soc ≥ BALANCING_TOP_SOC_START) = false :=
    decide_eq_false (not_le.mpr hmean2)
  have h2 : decide (listMean p.cell_soc ≤ BALANCING_BOTTOM_SOC_END) = false :=
    decide_eq_false (not_le.mpr hmean1)
  simp [BatteryPack.balancing_active, pack_zero_soc_after_clip p t hbounds, h1, h2]

theorem pack_zero_soc_after_balancing (p : BatteryPack) (t : ℚ)
    (hmean1 : BALANCING_BOTTOM_SOC_END < listMean p.cell_soc)
    (hmean2 : listMean p.cell_soc < BALANCING_TOP_SOC_START)
    (hbounds : ∀ s ∈ p.cell_soc, 0 ≤ s ∧ s ≤ 100) :
    p.soc_after_balancing 0 t = p.cell_soc := by
  simp [BatteryPack.soc_after_balancing,
    pack_zero_balancing_off p t hmean1 hmean2 hbounds,
    pack_zero_soc_after_clip p t hbounds]

theorem pack_zero_power_cell_soc (p : BatteryPack) (t : ℚ)
    (hmean1 : BALANCING_BOTTOM_SOC_END < listMean p.cell_soc)
    (hmean2 : listMean p.cell_soc < BALANCING_TOP_SOC_START)
    (hv : ∀ s ∈ p.cell_soc, L2_CALIBRATE_LOW_VOLTAGE < curveApply s ∧
        curveApply s < L2_CALIBRATE_HIGH_VOLTAGE) :
    (p.update_state 0 t).cell_soc = p.cell_soc := by
  have hbounds : ∀ s ∈ p.cell_soc, 0 ≤ s ∧ s ≤ 100 := fun s hs =>
    ⟨soc_nonneg_of_curve_gt s (hv s hs).1, soc_le100_of_curve_lt s (hv s hs).2⟩
  rw [update_state_cell_soc, pack_zero_soc_after_balancing p t hmean1 hmean2 hbounds,
    interpolate_voltage_from_soc_vectorized, zip_self_map, List.map_map, List.map_map]
  conv_rhs => rw [← List.map_id p.cell_soc]
  refine List.map_congr_left fun a ha => ?_
  obtain ⟨hv1, hv2⟩ := hv a ha
  obtain ⟨hb1, hb2⟩ := hbounds a ha
  have hc1 : ¬ (curveApply a ≤ L2_CUTOFF_LOW_VOLTAGE) := by
    rw [L2_CUTOFF_LOW_VOLTAGE]
    rw [L2_CALIBRATE_LOW_VOLTAGE] at hv1
    intro hle
    norm_num at hle hv1
    linarith
  have hc2 : ¬ (L2_CUTOFF_LOW_VOLTAGE < curveApply a ∧
      curveApply a ≤ L2_CALIBRATE_LOW_VOLTAGE) :=
    fun hcc => absurd hcc.2 (not_le.mpr hv1)
  have hc3 : ¬ (curveApply a ≥ L2_CUTOFF_HIGH_VOLTAGE) := by
    rw [L2_CUTOFF_HIGH_VOLTAGE]
    rw [L2_CALIBRATE_HIGH_VOLTAGE] at hv2
    intro hle
    norm_num at hle hv2
    linarith
  have hc4 : ¬ (L2_CALIBRATE_HIGH_VOLTAGE ≤ curveApply a ∧
      curveApply a < L2_CUTOFF_HIGH_VOLTAGE) :=
    fun hcc => absurd hcc.1 (not_le.mpr hv2)
  simp only [Function.comp_apply, id_eq, calibrate_cell, if_neg hc1, if_neg hc2,
    if_neg hc3, if_neg hc4]
  exact clip0100_eq_self a hb1 hb2

/-- Claim C2: after `BatteryPack.update_state` with any power, any sign and
magnitude, and any positive step duration, every cell's SOC lies in [0, 100]. -/
theorem claimC2_theorem (p : BatteryPack) (power_w time_step_s : ℚ)
    (h : 0 < time_step_s) :
    ∀ s ∈ (p.update_state power_w time_step_s).cell_soc, 0 ≤ s ∧ s ≤ 100 := by
  intro s hs
  rw [update_state_cell_soc] at hs
  rcases List.mem_map.mp hs with ⟨a, _, rfl⟩
  exact ⟨clip0100_nonneg a, clip0100_le a⟩

theorem claimC2_witness :
    0 < (3 : ℚ) ∧ 0 ≤ ((packUniform 1 50).update_state 0 3).cell_soc.headI ∧
      ((packUniform 1 50).update_state 0 3).cell_soc.headI ≤ 100 := by
  have heval : ((packUniform 1 50).update_state 0 3).cell_soc =
      (packUniform 1 50).cell_soc := by
    refine pack_zero_power_cell_soc _ 3 ?_ ?_ ?_
    · norm_num [packUniform, listMean, BALANCING_BOTTOM_SOC_END, List.replicate]
    · norm_num [packUniform, listMean, BALANCING_TOP_SOC_START, List.replicate]
    · intro s hs
      simp [packUniform, List.replicate] at hs
      subst hs
      rw [curveApply_fifty]
      norm_num [L2_CALIBRATE_LOW_VOLTAGE, L2_CALIBRATE_HIGH_VOLTAGE]
  have hmem : ((packUniform 1 50).update_state 0 3).cell_soc.headI ∈
      ((packUniform 1 50).update_state 0 3).cell_soc := by
    rw [heval]
    simp [packUniform, List.replicate]
  have hb := claimC2_theorem (packUniform 1 50) 0 3 (by norm_num) _ hmem
  exact ⟨by norm_num, hb.1, hb.2⟩

/-- Claim C8: with 0 W commanded, any step duration, mean SOC strictly between
the balancing thresholds and every cell voltage strictly inside the
calibration bands, `update_state` leaves every cell's SOC unchanged. -/
theorem claimC8_theorem (p : BatteryPack) (time_step_s : ℚ)
    (hmean1 : BALANCING_BOTTOM_SOC_END < listMean p.cell_soc)
    (hmean2 : listMean p.cell_soc < BALANCING_TOP_SOC_START)
    (hv : ∀ s ∈ p.cell_soc, L2_CALIBRATE_LOW_VOLTAGE < curveApply s ∧
        curveApply s < L2_CALIBRATE_HIGH_VOLTAGE) :
    (p.update_state 0 time_step_s).cell_soc = p.cell_soc :=
  pack_zero_power_cell_soc p time_step_s hmean1 hmean2 hv

theorem claimC8_witness :
    ((packUniform 1 50).update_state 0 7).cell_soc = (packUniform 1 50).cell_soc := by
  refine claimC8_theorem (packUniform 1 50) 7 ?_ ?_ ?_
  · norm_num [packUniform, listMean, BALANCING_BOTTOM_SOC_END, List.replicate]
  · norm_num [packUniform, listMean, BALANCING_TOP_SOC_START, List.replicate]
  · intro s hs
    simp [packUniform, List.replicate] at hs
    subst hs
    rw [curveApply_fifty]
    norm_num [L2_CALIBRATE_LOW_VOLTAGE, L2_CALIBRATE_HIGH_VOLTAGE]

/- ----------------------------------------------------------------
   Claim C3: stored voltage vs calibrated SOC
   ---------------------------------------------------------------- -/

theorem packLow_soc_after_clip : (packUniform 1 0).soc_after_clip 0 1 = [0] := by
  rw [BatteryPack.soc_after_clip, pack_zero_delta]
  norm_num [packUniform, List.replicate_one, clip0100, max_def, min_def]

theorem packLow_balancing_off : (packUniform 1 0).balancing_active 0 1 = false := by
  simp only [BatteryPack.balancing_active, packLow_soc_after_clip]
  norm_num [listMean]

theorem packLow_soc_after_balancing :
    (packUniform 1 0).soc_after_balancing 0 1 = [0] := by
  simp only [BatteryPack.soc_after_balancing, packLow_balancing_off]
  simp [packLow_soc_after_clip]

theorem packLow_cell_soc :
    ((packUniform 1 0).update_state 0 1).cell_soc = [26 / 5] := by
  rw [update_state_cell_soc, packLow_soc_after_balancing]
  norm_num [interpolate_voltage_from_soc_vectorized, curveApply_zero, calibrate_cell,
    L2_CUTOFF_LOW_VOLTAGE, L2_CALIBRATE_LOW_VOLTAGE, L2_CUTOFF_HIGH_VOLTAGE,
    L2_CALIBRATE_HIGH_VOLTAGE, MIN_SAFE_SOC, clip0100, max_def, min_def]

theorem packLow_cell_voltage :
    ((packUniform 1 0).update_state 0 1).cell_voltage = [5 / 2] := by
  rw [update_state_cell_voltage, packLow_soc_after_balancing]
  norm_num [curveApply_zero]

/-- Claim C3 counterexample: a one-cell pack at SOC 0 updated with 0 W for 1 s
gets calibrated up to MIN_SAFE_SOC = 5.2, but its stored voltage stays the
pre-calibration 2.5 V, not the curve value at the post-calibration SOC
(2.812 V): the stored voltage is stale exactly when calibration fires. -/
theorem claimC3_counterexample :
    ((packUniform 1 0).update_state 0 1).cell_voltage[0]? ≠
      (((packUniform 1 0).update_state 0 1).cell_soc[0]?).map curveApply := by
  rw [packLow_cell_voltage, packLow_cell_soc]
  simp [curveApply_min_safe]
  norm_num

/-- Claim C3 (amended): after `update_state` the stored cell voltages are the
curve evaluated at the post-balancing, pre-calibration SOC array; in
particular, at every index where the final (post-calibration) SOC agrees with
the pre-calibration SOC, the stored voltage equals the curve at the final
SOC.  (The source never recomputes voltage after the calibration masks, so the
claim's "post-calibration" reading fails; see the counterexample.) -/
theorem claimC3_theorem (p : BatteryPack) (power_w time_step_s : ℚ) :
    (p.update_state power_w time_step_s).cell_voltage =
      (p.soc_after_balancing power_w time_step_s).map curveApply ∧
    ∀ (i : ℕ) (s : ℚ),
      (p.update_state power_w time_step_s).cell_soc[i]? = some s →
      (p.soc_after_balancing power_w time_step_s)[i]? = some s →
      (p.update_state power_w time_step_s).cell_voltage[i]? = some (curveApply s) := by
  refine ⟨rfl, fun i s _ h2 => ?_⟩
  rw [update_state_cell_voltage, List.getElem?_map, h2]
  rfl

theorem claimC3_witness :
    ((packUniform 1 50).update_state 0 1).cell_voltage[0]? = some (curveApply 50) := by
  have hb1 : BALANCING_BOTTOM_SOC_END < listMean (packUniform 1 50).cell_soc := by
    norm_num [packUniform, listMean, BALANCING_BOTTOM_SOC_END, List.replicate]
  have hb2 : listMean (packUniform 1 50).cell_soc < BALANCING_TOP_SOC_START := by
    norm_num [packUniform, listMean, BALANCING_TOP_SOC_START, List.replicate]
  have hv : ∀ s ∈ (packUniform 1 50).cell_soc,
      L2_CALIBRATE_LOW_VOLTAGE < curveApply s ∧
        curveApply s < L2_CALIBRATE_HIGH_VOLTAGE := by
    intro s hs
    simp [packUniform, List.replicate] at hs
    subst hs
    rw [curveApply_fifty]
    norm_num [L2_CALIBRATE_LOW_VOLTAGE, L2_CALIBRATE_HIGH_VOLTAGE]
  have hbounds : ∀ s ∈ (packUniform 1 50).cell_soc, 0 ≤ s ∧ s ≤ 100 := fun s hs =>
    ⟨soc_nonneg_of_curve_gt s (hv s hs).1, soc_le100_of_curve_lt s (hv s hs).2⟩
  have hbal : (packUniform 1 50).soc_after_balancing 0 1 = (packUniform 1 50).cell_soc :=
    pack_zero_soc_after_balancing _ 1 hb1 hb2 hbounds
  have hsoc : ((packUniform 1 50).update_state 0 1).cell_soc = (packUniform 1 50).cell_soc :=
    pack_zero_power_cell_soc _ 1 hb1 hb2 hv
  refine (claimC3_theorem (packUniform 1 50) 0 1).2 0 50 ?_ ?_
  · rw [hsoc]
    simp [packUniform, List.replicate]
  · rw [hbal]
    simp [packUniform, List.replicate]

/- ----------------------------------------------------------------
   Claims C1 and C10: the inverter-group interlock
   ---------------------------------------------------------------- -/

theorem containerSmall_voltages :
    (containerSmall 5).all_cell_voltages = [2.8] := by
  simp [BatteryContainer.all_cell_voltages, containerSmall, packUniform,
    List.replicate_one, curveApply_five]

theorem containerSmall_min_voltage :
    (containerSmall 5).get_min_cell_voltage = 2.8 := by
  rw [BatteryContainer.get_min_cell_voltage, containerSmall_voltages]
  rfl

theorem containerSmall_max_voltage :
    (containerSmall 5).get_max_cell_voltage = 2.8 := by
  rw [BatteryContainer.get_max_cell_voltage, containerSmall_voltages]
  rfl

theorem group_charging_applied (g : InverterGroup) (power_mw time_step_s : ℚ)
    (h1 : g.containers ≠ []) (h2 : 0 < power_mw)
    (h3 : g.containers.any
        (fun c => decide (c.get_max_cell_voltage ≥ L2_CUTOFF_HIGH_VOLTAGE)) = false) :
    (g.update_state power_mw time_step_s).last_applied_power_mw = power_mw ∧
    (g.update_state power_mw time_step_s).last_commanded_power_mw = power_mw := by
  have hci : ¬ (power_mw > 0 ∧ g.containers.any
      (fun c => decide (c.get_max_cell_voltage ≥ L2_CUTOFF_HIGH_VOLTAGE)) = true) := by
    rw [h3]
    rintro ⟨-, hcc⟩
    exact Bool.false_ne_true hcc
  have hdi : ¬ (power_mw < 0 ∧ g.containers.any
      (fun c => decide (c.get_min_cell_voltage ≤ L2_CUTOFF_LOW_VOLTAGE)) = true) := by
    rintro ⟨hcc, -⟩
    exact absurd hcc (not_lt.mpr h2.le)
  simp only [InverterGroup.update_state, if_neg h1, WEAK_LINK_CUTOFF_BY_VOLTAGE,
    if_true, if_neg hci, if_neg hdi]
  exact ⟨by trivial, by trivial⟩

/-- Claim C1 counterexample: a group whose single container sits at the SOC
minimum (all cells at 5.0 % SOC, stored voltage exactly the 2.8 V low-voltage
cutoff, satisfying the claim's "minimum cell voltage at or below the
low-voltage cutoff") is commanded power_mw = +1.  The claim says the interlock
forces last_applied_power_mw to 0; in the code positive power is *charging*
(only checked against the high-voltage cutoff), so the full +1 MW is applied. -/
theorem claimC1_counterexample :
    groupLowCell.containers ≠ [] ∧
    groupLowCell.containers.any
      (fun c => decide (c.get_min_cell_voltage ≤ L2_CUTOFF_LOW_VOLTAGE)) = true ∧
    (groupLowCell.update_state 1 1).last_commanded_power_mw = 1 ∧
    (groupLowCell.update_state 1 1).last_applied_power_mw = 1 ∧ (1 : ℚ) ≠ 0 := by
  have hne : groupLowCell.containers ≠ [] := by simp [groupLowCell]
  have hmax : groupLowCell.containers.any
      (fun c => decide (c.get_max_cell_voltage ≥ L2_CUTOFF_HIGH_VOLTAGE)) = false := by
    simp only [groupLowCell, List.any_cons, List.any_nil, Bool.or_false]
    rw [containerSmall_max_voltage]
    simp only [decide_eq_false_iff_not]
    norm_num [L2_CUTOFF_HIGH_VOLTAGE]
  have happ := group_charging_applied groupLowCell 1 1 hne (by norm_num) hmax
  refine ⟨hne, ?_, happ.2, happ.1, by norm_num⟩
  simp only [groupLowCell, List.any_cons, List.any_nil, Bool.or_false]
  rw [containerSmall_min_voltage]
  simp only [decide_eq_true_eq]
  norm_num [L2_CUTOFF_LOW_VOLTAGE]

/-- Claim C1 (amended): the code's internal sign convention is positive =
charge, negative = discharge, and the voltage-based interlock compares against
the stored cell voltages; a group with at least one container, commanded
*negative* (discharge) power while some owned container's minimum cell voltage
is at or below the low-voltage cutoff (note SOC = MIN_SAFE_SOC itself sits at
2.812 V, above the 2.8 V cutoff), records last_applied_power_mw = 0 and
last_commanded_power_mw equal to the input. -/
theorem claimC1_theorem (g : InverterGroup) (power_mw time_step_s : ℚ)
    (h1 : g.containers ≠ []) (h2 : power_mw < 0)
    (h3 : g.containers.any
        (fun c => decide (c.get_min_cell_voltage ≤ L2_CUTOFF_LOW_VOLTAGE)) = true) :
    (g.update_state power_mw time_step_s).last_applied_power_mw = 0 ∧
    (g.update_state power_mw time_step_s).last_commanded_power_mw = power_mw := by
  have hci : ¬ (power_mw > 0 ∧ g.containers.any
      (fun c => decide (c.get_max_cell_voltage ≥ L2_CUTOFF_HIGH_VOLTAGE)) = true) := by
    rintro ⟨hcc, -⟩
    exact absurd hcc (not_lt.mpr h2.le)
  simp only [InverterGroup.update_state, if_neg h1, WEAK_LINK_CUTOFF_BY_VOLTAGE,
    if_true, if_neg hci, if_pos (And.intro h2 h3)]
  exact ⟨by trivial, by trivial⟩

theorem claimC1_witness :
    (groupLowCell.update_state (-1) 1).last_applied_power_mw = 0 ∧
    (groupLowCell.update_state (-1) 1).last_commanded_power_mw = -1 := by
  refine claimC1_theorem groupLowCell (-1) 1 (by simp [groupLowCell]) (by norm_num) ?_
  simp only [groupLowCell, List.any_cons, List.any_nil, Bool.or_false]
  rw [containerSmall_min_voltage]
  simp only [decide_eq_true_eq]
  norm_num [L2_CUTOFF_LOW_VOLTAGE]

/-- Claim C10: calling `InverterGroup.update_state` on a group with an empty
containers list returns the state unchanged — in particular the commanded
power of such a call is never recorded in last_commanded_power_mw or
last_applied_power_mw. -/
theorem claimC10_theorem (g : InverterGroup) (power_mw time_step_s : ℚ)
    (h : g.containers = []) : g.update_state power_mw time_step_s = g := by
  simp [InverterGroup.update_state, h]

theorem claimC10_witness : groupEmpty.update_state 2 1 = groupEmpty :=
  claimC10_theorem groupEmpty 2 1 rfl

/- ----------------------------------------------------------------
   Claim C7: the chiller supply-temperature update
   ---------------------------------------------------------------- -/

/-- Claim C7 counterexample: at a tiny positive flow (10⁻¹³ m³/s) the source's
epsilon floor `max(1e-6, m_dot·cp)` takes over the divisor, so the code yields
supply 23.11875 °C where the claim's un-floored formula yields 20 °C. -/
theorem claimC7_counterexample :
    (chillerTiny.update_supply_temperature 30).current_supply_temp_C = 3699 / 160 ∧
    chiller_spec_supply chillerTiny 30 = 20 ∧ (3699 / 160 : ℚ) ≠ 20 := by
  refine ⟨?_, ?_, by norm_num⟩
  · norm_num [Chiller.update_supply_temperature, chillerTiny, FLUID_DENSITY_KG_M3,
      FLUID_SPECIFIC_HEAT_J_KG_K, max_def, min_def]
  · norm_num [chiller_spec_supply, chillerTiny, FLUID_DENSITY_KG_M3,
      FLUID_SPECIFIC_HEAT_J_KG_K, max_def, min_def]

/-- Claim C7 (amended): for every Chiller and return temperature, the updated
supply temperature equals 0.5·previous + 0.5·achievable with
achievable = max(0, return − min(m_dot·cp·max(0, return−setpoint),
max_capacity) / max(1e-6, m_dot·cp)) and m_dot = density·max(flow, 0): the
claim's formula holds once the divisor carries the source's 1e-6 epsilon floor
(and the flow its max-with-0 guard). -/
theorem claimC7_theorem (ch : Chiller) (return_temp_C : ℚ) :
    (ch.update_supply_temperature return_temp_C).current_supply_temp_C =
      (1 / 2) * ch.current_supply_temp_C + (1 / 2) * max 0 (return_temp_C -
        min (FLUID_DENSITY_KG_M3 * max ch.total_flow_rate_m3_s 0 * FLUID_SPECIFIC_HEAT_J_KG_K *
            max 0 (return_temp_C - ch.supply_temp_setpoint_C)) ch.max_cooling_capacity_W /
          max (1 / 1000000) (FLUID_DENSITY_KG_M3 * max ch.total_flow_rate_m3_s 0 *
            FLUID_SPECIFIC_HEAT_J_KG_K)) := by
  simp only [Chiller.update_supply_temperature]
  norm_num

/- ----------------------------------------------------------------
   Claim C6: the sequence-mode taper
   ---------------------------------------------------------------- -/

/-- Claim C6: in sequence mode, on a step of duration 100 s with external
real_power_mw = +10 (internal base target −10 MW) and taper end_power_mw = 0,
the computed site power target at elapsed time 50 s is −5 MW, and for every
elapsed time at or beyond 100 s the taper fraction clamps to 1 and the target
is 0 MW. -/
theorem claimC6_theorem :
    ((siteTaper 50).update_test_state 1).current_site_power_target_mw = -5 ∧
    ∀ e : ℚ, 100 ≤ e →
      ((siteTaper e).update_test_state 1).current_site_power_target_mw = 0 := by
  have hs : ("real" = "idle") = False := by decide
  constructor
  · norm_num [BESS_Site.update_test_state, BESS_Site.update_by_sequence, siteTaper,
      stepTaper, SequenceStep.duration_s, max_def, min_def, hs]
  · intro e he
    have hA : (0 : ℚ) ≤ e / 100 := div_nonneg (by linarith) (by norm_num)
    have hB : (1 : ℚ) ≤ e / 100 := (le_div_iff₀ (by norm_num)).mpr (by linarith)
    have h2 : (100 : ℚ) ≤ e + 1 := by linarith
    norm_num [BESS_Site.update_test_state, BESS_Site.update_by_sequence, siteTaper,
      stepTaper, SequenceStep.duration_s, max_def, min_def, hs, hA, hB, h2]

theorem claimC6_witness :
    ((siteTaper 150).update_test_state 1).current_site_power_target_mw = 0 :=
  claimC6_theorem.2 150 (by norm_num)

/- ----------------------------------------------------------------
   Claim C5: the built-in ramp from IDLE
   ---------------------------------------------------------------- -/

theorem run_preserves_machineView (s : BESS_Site) (dt : ℚ) :
    (s.run_time_step dt).machineView = (s.update_test_state dt).machineView := by
  simp only [BESS_Site.run_time_step]
  split <;> rfl

theorem seq_enabled_update_by_sequence (s : BESS_Site) (dt : ℚ) :
    (s.update_by_sequence dt).sequence_enabled = s.sequence_enabled := by
  rw [BESS_Site.update_by_sequence]
  cases hg : s.sequence.get? s.seq_index with
  | none => rfl
  | some step =>
    simp only []
    split <;> rfl

theorem seq_enabled_update_test_state (s : BESS_Site) (dt : ℚ) :
    (s.update_test_state dt).sequence_enabled = s.sequence_enabled := by
  rw [BESS_Site.update_test_state]
  split
  · exact seq_enabled_update_by_sequence s dt
  · rfl

theorem seq_enabled_run_time_step (s : BESS_Site) (dt : ℚ) :
    (s.run_time_step dt).sequence_enabled = s.sequence_enabled := by
  simp only [BESS_Site.run_time_step]
  split <;> exact seq_enabled_update_test_state s dt

theorem uts_machineView (s : BESS_Site) (dt : ℚ) (h : s.sequence_enabled = false) :
    (s.update_test_state dt).machineView =
      cycleStep dt (s.any_container_soc_at_or_above CHARGE_TAPER_SOC_THRESHOLD)
        (s.any_container_soc_at_or_below DISCHARGE_TAPER_SOC_THRESHOLD) s.machineView := by
  simp only [BESS_Site.update_test_state, h]
  rfl

theorem cycleStep_bool_irrelevant (dt : ℚ) (a b : Bool) (m : MachineView)
    (hsafe : machineSafe m) :
    cycleStep dt a b m = cycleStep dt false false m := by
  rcases m with ⟨ts, st, tg⟩
  simp only [machineSafe] at hsafe
  rcases hsafe with h | h | h <;> subst h <;> rfl

theorem run_machineView (s : BESS_Site) (dt : ℚ) (h1 : s.sequence_enabled = false)
    (h2 : machineSafe s.machineView) :
    (s.run_time_step dt).machineView = cycleStep dt false false s.machineView := by
  rw [run_preserves_machineView, uts_machineView s dt h1,
    cycleStep_bool_irrelevant dt _ _ _ h2]

theorem cycleIter_succ_right (dt : ℚ) : ∀ (n : ℕ) (m : MachineView),
    cycleIter dt (n + 1) m = cycleStep dt false false (cycleIter dt n m) := by
  intro n
  induction n with
  | zero => intro m; rfl
  | succ n ih =>
    intro m
    calc cycleIter dt (n + 1 + 1) m
        = cycleIter dt (n + 1) (cycleStep dt false false m) := rfl
      _ = cycleStep dt false false (cycleIter dt n (cycleStep dt false false m)) := ih _
      _ = cycleStep dt false false (cycleIter dt (n + 1) m) := rfl

theorem stepN_machineView (dt : ℚ) : ∀ (n : ℕ) (s : BESS_Site),
    s.sequence_enabled = false →
    (∀ k, k < n → machineSafe (cycleIter dt k s.machineView)) →
    (BESS_Site.stepN dt n s).machineView = cycleIter dt n s.machineView := by
  intro n
  induction n with
  | zero => intro s _ _; rfl
  | succ n ih =>
    intro s h1 hguard
    have hs0 : machineSafe s.machineView := hguard 0 (Nat.succ_pos n)
    have hrun : (s.run_time_step dt).machineView = cycleStep dt false false s.machineView :=
      run_machineView s dt h1 hs0
    have hseq : (s.run_time_step dt).sequence_enabled = false := by
      rw [seq_enabled_run_time_step]
      exact h1
    have hguard2 : ∀ k, k < n →
        machineSafe (cycleIter dt k (s.run_time_step dt).machineView) := by
      intro k hk
      rw [hrun]
      have he : cycleIter dt k (cycleStep dt false false s.machineView) =
          cycleIter dt (k + 1) s.machineView := rfl
      rw [he]
      exact hguard (k + 1) (by omega)
    have hstep : BESS_Site.stepN dt (n + 1) s =
        BESS_Site.stepN dt n (s.run_time_step dt) := rfl
    rw [hstep, ih _ hseq hguard2, hrun]
    rfl

theorem cycleStep_idle (st tg : ℚ) :
    cycleStep 1 false false ⟨"IDLE", st, tg⟩ = ⟨"INIT", 1, 0⟩ := by
  norm_num +decide [cycleStep]

theorem cycleStep_init (st tg : ℚ) :
    cycleStep 1 false false ⟨"INIT", st, tg⟩ = ⟨"RAMP_CHARGE", 1, 0⟩ := by
  norm_num +decide [cycleStep]

theorem cycleStep_ramp (t tg : ℚ) (h0 : 0 ≤ t) (h1 : t < 30) :
    cycleStep 1 false false ⟨"RAMP_CHARGE", t, tg⟩ =
      ⟨"RAMP_CHARGE", t + 1, t / 30 * 40⟩ := by
  have hC : ((1 : ℚ) ≤ t / 30) = False :=
    eq_false (not_le.mpr ((div_lt_one (by norm_num)).mpr h1))
  have hD : ((30 : ℚ) ≤ t) = False := eq_false (not_le.mpr h1)
  norm_num +decide [cycleStep, RAMP_DURATION_SECONDS, SITE_TARGET_POWER_MW, max_def,
    min_def, hC, hD]

theorem cycleStep_ramp_end (tg : ℚ) :
    cycleStep 1 false false ⟨"RAMP_CHARGE", 30, tg⟩ = ⟨"CONST_CHARGE", 1, 40⟩ := by
  norm_num +decide [cycleStep, RAMP_DURATION_SECONDS, SITE_TARGET_POWER_MW, max_def,
    min_def]

theorem cycleIter_two :
    cycleIter 1 2 ⟨"IDLE", 0, 0⟩ = ⟨"RAMP_CHARGE", 1, 0⟩ := by
  have h1 : cycleIter 1 2 (⟨"IDLE", 0, 0⟩ : MachineView) =
      cycleIter 1 1 (cycleStep 1 false false ⟨"IDLE", 0, 0⟩) := rfl
  rw [h1, cycleStep_idle]
  have h2 : cycleIter 1 1 (⟨"INIT", 1, 0⟩ : MachineView) =
      cycleStep 1 false false ⟨"INIT", 1, 0⟩ := rfl
  rw [h2, cycleStep_init]

theorem cycleIter_add (a b : ℕ) (m : MachineView) :
    cycleIter 1 (a + b) m = cycleIter 1 b (cycleIter 1 a m) := by
  induction a generalizing m with
  | zero =>
    rw [Nat.zero_add]
    rfl
  | succ a ih =>
    have h1 : a + 1 + b = a + b + 1 := by omega
    rw [h1]
    have h2 : cycleIter 1 (a + b + 1) m =
        cycleIter 1 (a + b) (cycleStep 1 false false m) := rfl
    rw [h2, ih]
    rfl

theorem cycleIter_ramp : ∀ (j : ℕ), j ≤ 29 →
    cycleIter 1 j ⟨"RAMP_CHARGE", 1, 0⟩ =
      ⟨"RAMP_CHARGE", (j : ℚ) + 1, (j : ℚ) / 30 * 40⟩ := by
  intro j
  induction j with
  | zero =>
    intro _
    norm_num [cycleIter]
  | succ j ih =>
    intro hj
    rw [cycleIter_succ_right, ih (by omega)]
    have hcast : ((j : ℚ)) ≤ 28 := by
      have h28 : (j : ℚ) ≤ ((28 : ℕ) : ℚ) := Nat.cast_le.mpr (by omega)
      simpa using h28
    rw [cycleStep_ramp ((j : ℚ) + 1) ((j : ℚ) / 30 * 40) (by positivity) (by linarith)]
    simp only [MachineView.mk.injEq, true_and]
    constructor <;> push_cast <;> ring

theorem ramp_guard : ∀ k, k < 32 → machineSafe (cycleIter 1 k ⟨"IDLE", 0, 0⟩) := by
  intro k hk
  match k with
  | 0 => exact Or.inl rfl
  | 1 =>
    have h : cycleIter 1 1 (⟨"IDLE", 0, 0⟩ : MachineView) =
        cycleStep 1 false false ⟨"IDLE", 0, 0⟩ := rfl
    rw [h, cycleStep_idle]
    exact Or.inr (Or.inl rfl)
  | (j + 2) =>
    have h2 : cycleIter 1 (j + 2) (⟨"IDLE", 0, 0⟩ : MachineView) =
        cycleIter 1 j ⟨"RAMP_CHARGE", 1, 0⟩ := by
      rw [show j + 2 = 2 + j from by omega, cycleIter_add, cycleIter_two]
    rw [h2, cycleIter_ramp j (by omega)]
    exact Or.inr (Or.inr rfl)

/-- Claim C5 counterexample: a 1-group / 1-container site in built-in mode
stepped with dt = 1 for exactly RAMP_DURATION_SECONDS = 30 seconds from IDLE
has target (28/30)·40 = 112/3 MW, not SITE_TARGET_POWER_MW = 40: the IDLE→INIT
and INIT→RAMP_CHARGE transitions each consume one step. -/
theorem claimC5_counterexample :
    (BESS_Site.stepN 1 30 siteRamp).current_site_power_target_mw = 112 / 3 ∧
    (112 / 3 : ℚ) ≠ SITE_TARGET_POWER_MW := by
  constructor
  · have hv : (BESS_Site.stepN 1 30 siteRamp).machineView =
        cycleIter 1 30 siteRamp.machineView :=
      stepN_machineView 1 30 siteRamp rfl (fun k hk => ramp_guard k (by omega))
    have ht : (BESS_Site.stepN 1 30 siteRamp).current_site_power_target_mw =
        ((BESS_Site.stepN 1 30 siteRamp).machineView).target_mw := rfl
    rw [ht, hv]
    have he : cycleIter 1 30 siteRamp.machineView =
        cycleIter 1 28 ⟨"RAMP_CHARGE", 1, 0⟩ := by
      show cycleIter 1 30 (⟨"IDLE", 0, 0⟩ : MachineView) = _
      rw [show (30 : ℕ) = 2 + 28 from rfl, cycleIter_add, cycleIter_two]
    rw [he, cycleIter_ramp 28 (by omega)]
    norm_num
  · norm_num [SITE_TARGET_POWER_MW]

/-- Claim C5 (amended): because the IDLE→INIT and INIT→RAMP_CHARGE transitions
each consume one time step before the ramp timer starts, the ramp's final step
(fraction 1) occurs RAMP_DURATION_SECONDS + 2 = 32 seconds after IDLE; at that
step the site power target equals SITE_TARGET_POWER_MW exactly. -/
theorem claimC5_theorem :
    (BESS_Site.stepN 1 32 siteRamp).current_site_power_target_mw =
      SITE_TARGET_POWER_MW := by
  have hv : (BESS_Site.stepN 1 32 siteRamp).machineView =
      cycleIter 1 32 siteRamp.machineView :=
    stepN_machineView 1 32 siteRamp rfl (fun k hk => ramp_guard k hk)
  have ht : (BESS_Site.stepN 1 32 siteRamp).current_site_power_target_mw =
      ((BESS_Site.stepN 1 32 siteRamp).machineView).target_mw := rfl
  rw [ht, hv]
  have e1 : cycleIter 1 32 siteRamp.machineView =
      cycleIter 1 30 ⟨"RAMP_CHARGE", 1, 0⟩ := by
    show cycleIter 1 32 (⟨"IDLE", 0, 0⟩ : MachineView) = _
    rw [show (32 : ℕ) = 2 + 30 from rfl, cycleIter_add, cycleIter_two]
  have e2 : cycleIter 1 30 (⟨"RAMP_CHARGE", 1, 0⟩ : MachineView) =
      cycleStep 1 false false (cycleIter 1 29 ⟨"RAMP_CHARGE", 1, 0⟩) :=
    cycleIter_succ_right 1 29 _
  rw [e1, e2, cycleIter_ramp 29 (by omega)]
  have e3 : ((29 : ℕ) : ℚ) + 1 = 30 := by norm_num
  rw [e3, cycleStep_ramp_end]
  norm_num [SITE_TARGET_POWER_MW]

/- ----------------------------------------------------------------
   Claim C9: the simulation runner
   ---------------------------------------------------------------- -/

theorem exec_length_le (dt : ℚ) (m : ℕ) : ∀ (fuel k : ℕ) (s : BESS_Site),
    (execute_simulation_step dt (some m) fuel k s).length ≤ 1 + (m - (k + 1)) := by
  intro fuel
  induction fuel with
  | zero =>
    intro k s
    simp [execute_simulation_step]
  | succ fuel ih =>
    intro k s
    simp only [execute_simulation_step]
    by_cases hd : (s.run_time_step dt).test_state = "DONE"
    · simp [hd]
    · rw [if_neg hd]
      by_cases hk : k + 1 ≥ m
      · rw [if_pos hk]
        simp
      · rw [if_neg hk, List.length_cons]
        have hrec := ih (k + 1) (s.run_time_step dt)
        omega

theorem exec_done_last_none (dt : ℚ) :
    ∀ (fuel k : ℕ) (s : BESS_Site) (i : ℕ) (s2 : BESS_Site),
      (execute_simulation_step dt none fuel k s)[i]? = some s2 →
      s2.test_state = "DONE" →
      (execute_simulation_step dt none fuel k s).length = i + 1 := by
  intro fuel
  induction fuel with
  | zero =>
    intro k s i s2 h1 _
    simp [execute_simulation_step] at h1
  | succ fuel ih =>
    intro k s i s2 h1 h2
    simp only [execute_simulation_step] at h1 ⊢
    cases i with
    | zero =>
      rw [List.getElem?_cons_zero] at h1
      obtain rfl : s.run_time_step dt = s2 := by simpa using h1
      rw [if_pos h2]
      simp
    | succ i =>
      rw [List.getElem?_cons_succ] at h1
      by_cases hd : (s.run_time_step dt).test_state = "DONE"
      · rw [if_pos hd] at h1
        simp at h1
      · rw [if_neg hd] at h1 ⊢
        rw [List.length_cons, ih _ _ _ _ h1 h2]

theorem exec_done_last_some (dt : ℚ) (m : ℕ) :
    ∀ (fuel k : ℕ) (s : BESS_Site) (i : ℕ) (s2 : BESS_Site),
      (execute_simulation_step dt (some m) fuel k s)[i]? = some s2 →
      s2.test_state = "DONE" →
      (execute_simulation_step dt (some m) fuel k s).length = i + 1 := by
  intro fuel
  induction fuel with
  | zero =>
    intro k s i s2 h1 _
    simp [execute_simulation_step] at h1
  | succ fuel ih =>
    intro k s i s2 h1 h2
    simp only [execute_simulation_step] at h1 ⊢
    cases i with
    | zero =>
      rw [List.getElem?_cons_zero] at h1
      obtain rfl : s.run_time_step dt = s2 := by simpa using h1
      rw [if_pos h2]
      simp
    | succ i =>
      rw [List.getElem?_cons_succ] at h1
      by_cases hd : (s.run_time_step dt).test_state = "DONE"
      · rw [if_pos hd] at h1
        simp at h1
      · rw [if_neg hd] at h1 ⊢
        by_cases hk : k + 1 ≥ m
        · rw [if_pos hk] at h1
          simp at h1
        · rw [if_neg hk] at h1 ⊢
          rw [List.length_cons, ih _ _ _ _ h1 h2]

/-- Claim C9 (amended): the runner yields nothing after a yield whose
test_state is "DONE" (a "DONE" snapshot is always the last element), and with
a supplied step budget it yields at most max(1, max_steps) snapshots — the
loop body runs once before the budget is checked, so max_steps = 0 still
produces one yield (see the counterexample); for max_steps ≥ 1 the bound is
exactly max_steps. -/
theorem claimC9_theorem (dt : ℚ) (max_steps : Option ℕ) (fuel : ℕ) (s : BESS_Site) :
    (∀ (i : ℕ) (s2 : BESS_Site),
        (execute_simulation_step dt max_steps fuel 0 s)[i]? = some s2 →
        s2.test_state = "DONE" →
        (execute_simulation_step dt max_steps fuel 0 s).length = i + 1) ∧
    (∀ m : ℕ, max_steps = some m →
        (execute_simulation_step dt max_steps fuel 0 s).length ≤ max 1 m) := by
  constructor
  · cases max_steps with
    | none => exact fun i s2 h1 h2 => exec_done_last_none dt fuel 0 s i s2 h1 h2
    | some m => exact fun i s2 h1 h2 => exec_done_last_some dt m fuel 0 s i s2 h1 h2
  · rintro m rfl
    have hle := exec_length_le dt m fuel 0 s
    have hmax : 1 + (m - 1) = max 1 m := by
      rw [Nat.max_def]
      split <;> omega
    omega

theorem siteDone_run : siteDone.run_time_step 1 =
    { siteDone with current_time_s := 1, state_time_s := 1 } := by
  norm_num +decide [BESS_Site.run_time_step, BESS_Site.update_test_state, siteDone,
    cycleStep, BESS_Site.machineView]

theorem siteDone_run_state : (siteDone.run_time_step 1).test_state = "DONE" := by
  rw [siteDone_run]
  rfl

theorem exec_siteDone (ms : Option ℕ) :
    execute_simulation_step 1 ms 5 0 siteDone = [siteDone.run_time_step 1] := by
  simp only [execute_simulation_step, siteDone_run_state]
  simp

/-- Claim C9 counterexample: with max_steps = 0 supplied the runner still
yields once (the loop yields before checking the budget), violating "at most
max_steps yields in total". -/
theorem claimC9_counterexample :
    (execute_simulation_step 1 (some 0) 5 0 siteDone).length = 1 ∧
    ¬ (execute_simulation_step 1 (some 0) 5 0 siteDone).length ≤ 0 := by
  rw [exec_siteDone]
  simp

theorem claimC9_witness :
    (execute_simulation_step 1 (some 3) 5 0 siteDone).length = 0 + 1 ∧
    (execute_simulation_step 1 (some 3) 5 0 siteDone).length ≤ max 1 3 := by
  constructor
  · refine (claimC9_theorem 1 (some 3) 5 siteDone).1 0 (siteDone.run_time_step 1) ?_
      siteDone_run_state
    rw [exec_siteDone]
    rfl
  · exact (claimC9_theorem 1 (some 3) 5 siteDone).2 3 rfl
